import Mathlib

/-!
Verification of the QingLong integration's token lifecycle manager and task
client (`custom_components/qinglong-assistant/__init__.py`, `sensor.py`,
`const.py`).

The embedding models the `QingLongClient` state fields that the control flow
of `_refresh_token_if_needed`, `async_run_task` and `async_get_tasks` reads or
writes (`_token`, `_token_expires`, `_refresh_lock`, `_last_refresh_time`).
The connection parameters (`_host`, `_port`, `_ssl`, `_client_id`,
`_client_secret`, `_session`, `_base_url`) only shape the HTTP request and
never influence a branch or a returned value, so they are not part of the
state. The HTTP layer (aiohttp + async_timeout) is modelled as an explicit
outcome parameter: either an exception (timeout, connection error, malformed
JSON — anything the `except Exception` arm catches) or a parsed response.
Timestamps are Python ints, modelled as `Int`.
-/

namespace QingLong

/-- `TOKEN_REFRESH_THRESHOLD = 86400` from `const.py`: refresh one day ahead. -/
def TOKEN_REFRESH_THRESHOLD : Int := 86400

/-- `TOKEN_EXPIRY_BUFFER = 3600` from `const.py`: one hour validity buffer. -/
def TOKEN_EXPIRY_BUFFER : Int := 3600

/-- The mutable `QingLongClient` fields read or written by the token
lifecycle and task operations. -/
structure ClientState where
  _token : String
  _token_expires : Int
  _refresh_lock : Bool
  _last_refresh_time : Int
deriving DecidableEq, Repr

/-- Outcome of the token-exchange HTTP GET (`session.get(url, params=...)`
inside `_refresh_token_if_needed`). `exc` stands for any raised exception
(timeout, connection error, body that fails to parse); `resp` carries the
HTTP status and, from the parsed JSON body, `data.get("code")`,
`data.get("data", {}).get("token")` and
`data.get("data", {}).get("expiration")`. -/
inductive AuthResult where
  | exc : AuthResult
  | resp (status : Nat) (code : Option Int) (token : Option String)
         (expiration : Option Int) : AuthResult
deriving DecidableEq, Repr

/-- Result of one call to `_refresh_token_if_needed`: the returned boolean,
the client state after the call, and whether the call reached the
token-exchange network request (the `session.get` on `/open/auth/token`). -/
structure RefreshOutcome where
  result : Bool
  state : ClientState
  networkCall : Bool
deriving DecidableEq, Repr

/-- The `try`/`except`/`finally` block of `_refresh_token_if_needed`
(`__init__.py` lines 80-130), entered with `_refresh_lock` just set to True:
the token-exchange request and the handling of its outcome. Non-200 HTTP
status, non-200 application code, and a missing or empty token each return
False; on success `_token_expires` is set (from `expiration` if truthy and
greater than `current_time`, else `current_time + 2592000`), then `_token`,
then `_last_refresh_time = current_time`, and True is returned. Any
exception returns False; the `finally` clause clears `_refresh_lock` on
every path, so each outcome below carries `_refresh_lock := false`. -/
def performTokenExchange (s : ClientState) (current_time : Int)
    (net : AuthResult) : RefreshOutcome :=
  match net with
  | .exc => ⟨false, { s with _refresh_lock := false }, true⟩
  | .resp status code token expiration =>
    if status ≠ 200 then
      ⟨false, { s with _refresh_lock := false }, true⟩
    else if code ≠ some 200 then
      ⟨false, { s with _refresh_lock := false }, true⟩
    else
      match token with
      | none => ⟨false, { s with _refresh_lock := false }, true⟩
      | some t =>
        -- `if not new_token` also rejects the empty string.
        if t = "" then
          ⟨false, { s with _refresh_lock := false }, true⟩
        else
          -- `if expiration and expiration > current_time`: Python
          -- truthiness rejects a 0 expiration as well as None.
          let new_expires : Int :=
            match expiration with
            | some e => if e ≠ 0 ∧ e > current_time then e
                        else current_time + 2592000
            | none => current_time + 2592000
          ⟨true,
           { s with _token := t, _token_expires := new_expires,
                    _last_refresh_time := current_time,
                    _refresh_lock := false },
           true⟩

/-- `QingLongClient._refresh_token_if_needed` (`__init__.py` lines 60-130).

Control flow, in source order:
1. if `_token_expires - current_time > TOKEN_REFRESH_THRESHOLD`: return True;
2. if `_refresh_lock`: return False;
3. if `current_time - _last_refresh_time < 300`: return False;
4. set `_refresh_lock = True` and run the exchange block
   (`performTokenExchange`). -/
def refreshTokenIfNeeded (s : ClientState) (current_time : Int)
    (net : AuthResult) : RefreshOutcome :=
  if s._token_expires - current_time > TOKEN_REFRESH_THRESHOLD then
    ⟨true, s, false⟩
  else if s._refresh_lock then
    ⟨false, s, false⟩
  else if current_time - s._last_refresh_time < 300 then
    ⟨false, s, false⟩
  else
    performTokenExchange s current_time net

/-- Outcome of the run-task HTTP PUT (`session.put` in `async_run_task`).
`exc` is any raised exception; `resp` carries the HTTP status and
`result.get("code")` from the parsed JSON body (None when the field is
missing; a body whose parse fails is an `exc`). -/
inductive RunResult where
  | exc : RunResult
  | resp (status : Nat) (code : Option Int) : RunResult
deriving DecidableEq, Repr

/-- Result of one call to `async_run_task`: the returned boolean and the
client state after the call. -/
structure RunOutcome where
  result : Bool
  state : ClientState
deriving DecidableEq, Repr

/-- `QingLongClient.async_run_task` (`__init__.py` lines 132-171).

It first awaits `_refresh_token_if_needed` (ignoring its boolean), then
issues the PUT. HTTP 401 sets `_last_refresh_time = 0` and returns False;
any other non-200 status returns False; an application code other than 200
returns False; status 200 with code 200 returns True. The surrounding
`try`/`except Exception` converts any raised exception to False. -/
def asyncRunTask (s : ClientState) (current_time : Int) (authNet : AuthResult)
    (runNet : RunResult) (task_id : String) : RunOutcome :=
  -- `task_id` only forms the request body `[task_id]`; it does not affect
  -- the control flow modelled here.
  let _ := task_id
  let s1 := (refreshTokenIfNeeded s current_time authNet).state
  match runNet with
  | .exc => ⟨false, s1⟩
  | .resp status code =>
    if status = 401 then ⟨false, { s1 with _last_refresh_time := 0 }⟩
    else if status ≠ 200 then ⟨false, s1⟩
    else if code ≠ some 200 then ⟨false, s1⟩
    else ⟨true, s1⟩

/-- A JSON value, for the list-tasks response body and the task snapshots
inside it. -/
inductive JVal where
  | jnull : JVal
  | jbool (b : Bool) : JVal
  | jnum (n : Int) : JVal
  | jstr (s : String) : JVal
  | jarr (xs : List JVal) : JVal
  | jobj (fields : List (String × JVal)) : JVal

/-- `d.get(key)` on a parsed JSON object: the value under `key`, None when
the key is absent or the value is not an object. -/
def JVal.get (v : JVal) (key : String) : Option JVal :=
  match v with
  | .jobj fields => List.lookup key fields
  | _ => none

/-- Python truthiness of a JSON value, as used by
`if task.get("isDisabled"):` in `_get_tasks_attributes` and by
`if expiration and ...` in the refresh path. -/
def JVal.truthy : JVal → Bool
  | .jnull => false
  | .jbool b => b
  | .jnum n => n != 0
  | .jstr s => s ≠ ""
  | .jarr xs => !xs.isEmpty
  | .jobj fields => !fields.isEmpty

/-- Outcome of the list-tasks HTTP GET (`session.get` in
`async_get_tasks`): an exception or the HTTP status with the parsed JSON
body. -/
inductive TasksNet where
  | exc : TasksNet
  | resp (status : Nat) (body : JVal) : TasksNet

/-- Result of one call to `async_get_tasks`: the returned payload (the
parsed body on success, the empty dict `{}` on every failure) and the
client state after the call. -/
structure TasksOutcome where
  payload : JVal
  state : ClientState

/-- The application-code check `data.get("code") != 200` of
`async_get_tasks`, as a Bool: true exactly when the body carries a numeric
`code` field equal to 200. (In the source a non-dict body would raise on
`.get` and be caught by the `except` arm, returning the same `{}`.) -/
def tasksCodeOk (body : JVal) : Bool :=
  match body.get "code" with
  | some (.jnum c) => c == 200
  | _ => false

/-- `QingLongClient.async_get_tasks` (`__init__.py` lines 207-242).

It first awaits `_refresh_token_if_needed` (ignoring its boolean), then
issues the GET. HTTP 401 sets `_last_refresh_time = 0` and returns `{}`;
any other non-200 status returns `{}`; an application code other than 200
returns `{}`; on success the parsed body is returned unmodified. The
surrounding `try`/`except Exception` converts any raised exception to `{}`. -/
def asyncGetTasks (s : ClientState) (current_time : Int)
    (authNet : AuthResult) (net : TasksNet) : TasksOutcome :=
  let s1 := (refreshTokenIfNeeded s current_time authNet).state
  match net with
  | .exc => ⟨.jobj [], s1⟩
  | .resp status body =>
    if status = 401 then ⟨.jobj [], { s1 with _last_refresh_time := 0 }⟩
    else if status ≠ 200 then ⟨.jobj [], s1⟩
    else if tasksCodeOk body then ⟨body, s1⟩
    else ⟨.jobj [], s1⟩

/-- `QingLongTasksSensor._extract_tasks_list` (`sensor.py` lines 162-173).

If the payload is a dict with a `data` key: when that inner value is a dict
with its own `data` key, return `inner["data"]` (whatever value it holds);
when the inner value is a list, return it; otherwise (and for any other
payload shape) return `[]`. -/
def extractTasksList (tasks_data : JVal) : JVal :=
  match tasks_data with
  | .jobj fields =>
    match List.lookup "data" fields with
    | some inner =>
      match inner with
      | .jobj inner_fields =>
        -- Structure: {"data": {"data": [...], "total": N}}
        match List.lookup "data" inner_fields with
        | some l => l
        | none => .jarr []
      | .jarr xs => .jarr xs
      | _ => .jarr []
    | none => .jarr []
  | _ => .jarr []

/-- The attributes `_get_tasks_attributes` (`sensor.py` lines 175-198)
derives from the extracted task list: the task count, the accumulated
`commands` list, and the enabled/disabled tallies. -/
structure TasksAttributes where
  total_tasks : Nat
  commands : List JVal
  enabled_tasks : Nat
  disabled_tasks : Nat

/-- `QingLongTasksSensor._get_tasks_attributes` (`sensor.py` lines
175-198), restricted to the fields above (the timestamp and the constant
polling-interval string are presentation only). For each dict task it
appends `task.get("command", "")` to `commands` and increments
`disabled_tasks` when `task.get("isDisabled")` is truthy, `enabled_tasks`
otherwise; non-dict entries are skipped. -/
def getTasksAttributes (tasks_list : List JVal) : TasksAttributes :=
  tasks_list.foldl
    (fun acc task =>
      match task with
      | .jobj fields =>
        let command := (List.lookup "command" fields).getD (.jstr "")
        let disabled :=
          match List.lookup "isDisabled" fields with
          | some v => v.truthy
          | none => false
        if disabled then
          { acc with commands := acc.commands ++ [command],
                     disabled_tasks := acc.disabled_tasks + 1 }
        else
          { acc with commands := acc.commands ++ [command],
                     enabled_tasks := acc.enabled_tasks + 1 }
      | _ => acc)
    ⟨tasks_list.length, [], 0, 0⟩

/-- The list-tasks response body of shape
`{code:200, data:{data:[...], total:N}}`. -/
def mkListBody (xs : List JVal) (total : Int) : JVal :=
  .jobj [("code", .jnum 200),
         ("data", .jobj [("data", .jarr xs), ("total", .jnum total)])]

/-- The sample task `{id:"1", command:"task foo.js", isDisabled:0}`. -/
def sampleTask : JVal :=
  .jobj [("id", .jstr "1"), ("command", .jstr "task foo.js"),
         ("isDisabled", .jnum 0)]

/-- A list-tasks outcome on which `async_get_tasks` takes one of its failure
branches: an exception, a non-200 HTTP status (including 401), or a body
whose application code is not 200. -/
def tasksFailureOutcome : TasksNet → Bool
  | .exc => true
  | .resp status body => status != 200 || !tasksCodeOk body

/-! ## Theorems -/

/-- Helper: when all three guards pass (token near expiry, no refresh in
flight, last attempt at least 300 seconds ago), `_refresh_token_if_needed`
runs the exchange block. -/
theorem refresh_reaches_exchange (s : ClientState) (current_time : Int)
    (net : AuthResult)
    (h1 : s._token_expires - current_time ≤ TOKEN_REFRESH_THRESHOLD)
    (h2 : s._refresh_lock = false)
    (h3 : 300 ≤ current_time - s._last_refresh_time) :
    refreshTokenIfNeeded s current_time net =
      performTokenExchange s current_time net := by
  unfold refreshTokenIfNeeded
  rw [if_neg (not_lt.mpr h1), if_neg (by simp [h2]), if_neg (not_lt.mpr h3)]

/-- C5. Fresh-token fast path: when the token expires more than
`TOKEN_REFRESH_THRESHOLD` (24 hours) after the current time,
`_refresh_token_if_needed` returns True, reaches no network call, and
leaves the client state unchanged. -/
theorem refresh_fast_path (s : ClientState) (current_time : Int)
    (net : AuthResult)
    (h : s._token_expires - current_time > TOKEN_REFRESH_THRESHOLD) :
    (refreshTokenIfNeeded s current_time net).result = true ∧
    (refreshTokenIfNeeded s current_time net).networkCall = false ∧
    (refreshTokenIfNeeded s current_time net).state = s := by
  unfold refreshTokenIfNeeded
  rw [if_pos h]
  exact ⟨rfl, rfl, rfl⟩

/-- Witness for C5 at a concrete state: expiry 200000 at time 0. -/
theorem refresh_fast_path_witness :
    (⟨"tok", 200000, false, 0⟩ : ClientState)._token_expires - 0 >
      TOKEN_REFRESH_THRESHOLD ∧
    ((refreshTokenIfNeeded ⟨"tok", 200000, false, 0⟩ 0 .exc).result = true ∧
     (refreshTokenIfNeeded ⟨"tok", 200000, false, 0⟩ 0 .exc).networkCall = false ∧
     (refreshTokenIfNeeded ⟨"tok", 200000, false, 0⟩ 0 .exc).state =
       ⟨"tok", 200000, false, 0⟩) :=
  ⟨by decide, refresh_fast_path ⟨"tok", 200000, false, 0⟩ 0 .exc (by decide)⟩

/-- C6. Backoff guard: when the token is within the refresh threshold, no
refresh is in flight, and the last refresh attempt was less than 300
seconds ago, `_refresh_token_if_needed` returns False, reaches no network
call, and leaves the client state (token included) unchanged. -/
theorem refresh_backoff_guard (s : ClientState) (current_time : Int)
    (net : AuthResult)
    (h1 : s._token_expires - current_time ≤ TOKEN_REFRESH_THRESHOLD)
    (h2 : s._refresh_lock = false)
    (h3 : current_time - s._last_refresh_time < 300) :
    (refreshTokenIfNeeded s current_time net).result = false ∧
    (refreshTokenIfNeeded s current_time net).networkCall = false ∧
    (refreshTokenIfNeeded s current_time net).state = s := by
  unfold refreshTokenIfNeeded
  rw [if_neg (not_lt.mpr h1), if_neg (by simp [h2]), if_pos h3]
  exact ⟨rfl, rfl, rfl⟩

/-- Witness for C6: expiry 1000 seconds away, last attempt 100 seconds
ago. -/
theorem refresh_backoff_guard_witness :
    (⟨"tok", 1500, false, 400⟩ : ClientState)._token_expires - 500 ≤
      TOKEN_REFRESH_THRESHOLD ∧
    (⟨"tok", 1500, false, 400⟩ : ClientState)._refresh_lock = false ∧
    (500 : Int) - (⟨"tok", 1500, false, 400⟩ : ClientState)._last_refresh_time < 300 ∧
    ((refreshTokenIfNeeded ⟨"tok", 1500, false, 400⟩ 500 .exc).result = false ∧
     (refreshTokenIfNeeded ⟨"tok", 1500, false, 400⟩ 500 .exc).networkCall = false ∧
     (refreshTokenIfNeeded ⟨"tok", 1500, false, 400⟩ 500 .exc).state =
       ⟨"tok", 1500, false, 400⟩) :=
  ⟨by decide, rfl, by decide,
   refresh_backoff_guard ⟨"tok", 1500, false, 400⟩ 500 .exc
     (by decide) rfl (by decide)⟩

/-- C4. Lock invariant: starting from any state with no refresh in flight,
`_refresh_token_if_needed` leaves `_refresh_lock` False on every exit path
— both fast-path returns, the backoff return, all failure returns of the
exchange, the success return, and an exception during the exchange. -/
theorem refresh_lock_cleared_on_exit (s : ClientState) (current_time : Int)
    (net : AuthResult) (h : s._refresh_lock = false) :
    (refreshTokenIfNeeded s current_time net).state._refresh_lock = false := by
  unfold refreshTokenIfNeeded performTokenExchange
  cases net with
  | exc => split_ifs <;> first | exact h | rfl
  | resp status code token expiration =>
    cases token <;> cases expiration <;> dsimp only <;> split_ifs <;>
      first | exact h | rfl

/-- Witness for C4 at a concrete state whose call runs the full successful
exchange. -/
theorem refresh_lock_cleared_on_exit_witness :
    (⟨"tok", 0, false, 0⟩ : ClientState)._refresh_lock = false ∧
    (refreshTokenIfNeeded ⟨"tok", 0, false, 0⟩ 1000
       (.resp 200 (some 200) (some "new") (some 5000))).state._refresh_lock
      = false :=
  ⟨rfl, refresh_lock_cleared_on_exit ⟨"tok", 0, false, 0⟩ 1000
     (.resp 200 (some 200) (some "new") (some 5000)) rfl⟩

/-- C1 counterexample: a state with the refresh-in-progress flag set but a
fresh token (expiry 1000000 at time 0). The claim says every call in an
in-flight state returns False; the code checks freshness first and returns
True. -/
theorem single_flight_counterexample :
    (⟨"tok", 1000000, true, 0⟩ : ClientState)._refresh_lock = true ∧
    (refreshTokenIfNeeded ⟨"tok", 1000000, true, 0⟩ 0 .exc).result = true := by
  decide

/-- C1 (amended). Single-flight guard: in any state with the
refresh-in-progress flag set, `_refresh_token_if_needed` reaches no network
call and mutates no client state; and whenever the token is within the
refresh threshold (the only states in which a refresh can actually be in
flight), it returns False immediately. -/
theorem single_flight_guard (s : ClientState) (current_time : Int)
    (net : AuthResult) (h : s._refresh_lock = true) :
    (refreshTokenIfNeeded s current_time net).networkCall = false ∧
    (refreshTokenIfNeeded s current_time net).state = s ∧
    (s._token_expires - current_time ≤ TOKEN_REFRESH_THRESHOLD →
      (refreshTokenIfNeeded s current_time net).result = false) := by
  unfold refreshTokenIfNeeded
  rcases lt_or_le TOKEN_REFRESH_THRESHOLD (s._token_expires - current_time)
    with h1 | h1
  · rw [if_pos h1]
    exact ⟨rfl, rfl, fun hc => absurd hc (not_le.mpr h1)⟩
  · rw [if_neg (not_lt.mpr h1), if_pos h]
    exact ⟨rfl, rfl, fun _ => rfl⟩

/-- Witness for C1 (amended): an in-flight state with a near-expiry
token. -/
theorem single_flight_guard_witness :
    (⟨"tok", 100, true, 0⟩ : ClientState)._refresh_lock = true ∧
    ((refreshTokenIfNeeded ⟨"tok", 100, true, 0⟩ 50 .exc).networkCall = false ∧
     (refreshTokenIfNeeded ⟨"tok", 100, true, 0⟩ 50 .exc).state =
       ⟨"tok", 100, true, 0⟩ ∧
     ((⟨"tok", 100, true, 0⟩ : ClientState)._token_expires - 50 ≤
        TOKEN_REFRESH_THRESHOLD →
      (refreshTokenIfNeeded ⟨"tok", 100, true, 0⟩ 50 .exc).result = false)) :=
  ⟨rfl, single_flight_guard ⟨"tok", 100, true, 0⟩ 50 .exc rfl⟩

/-- C2. Successful-refresh postcondition: when the guards pass and the
exchange succeeds (HTTP 200, application code 200, non-empty token), the
call returns True and, in the same step, stores the new token, sets the
expiry to the response's `expiration` when it is greater than the current
(non-negative) time and to `current_time + 2592000` otherwise, and records
the attempt time; the new expiry lies strictly in the future. -/
theorem refresh_success_postcondition (s : ClientState) (current_time : Int)
    (tok : String) (expiration : Option Int)
    (h0 : 0 ≤ current_time)
    (h1 : s._token_expires - current_time ≤ TOKEN_REFRESH_THRESHOLD)
    (h2 : s._refresh_lock = false)
    (h3 : 300 ≤ current_time - s._last_refresh_time)
    (h4 : tok ≠ "") :
    (refreshTokenIfNeeded s current_time
       (.resp 200 (some 200) (some tok) expiration)).result = true ∧
    (refreshTokenIfNeeded s current_time
       (.resp 200 (some 200) (some tok) expiration)).state._token = tok ∧
    (refreshTokenIfNeeded s current_time
       (.resp 200 (some 200) (some tok) expiration)).state._token_expires =
      (match expiration with
       | some e => if current_time < e then e else current_time + 2592000
       | none => current_time + 2592000) ∧
    (refreshTokenIfNeeded s current_time
       (.resp 200 (some 200) (some tok) expiration)).state._last_refresh_time
      = current_time ∧
    current_time <
      (refreshTokenIfNeeded s current_time
         (.resp 200 (some 200) (some tok) expiration)).state._token_expires := by
  rw [refresh_reaches_exchange s current_time _ h1 h2 h3]
  unfold performTokenExchange
  dsimp only
  rw [if_neg (by decide : ¬ ((200 : Nat) ≠ 200)),
      if_neg (by decide : ¬ ((some 200 : Option Int) ≠ some 200)),
      if_neg h4]
  cases expiration with
  | none =>
    refine ⟨rfl, rfl, rfl, rfl, ?_⟩
    show current_time < current_time + 2592000
    omega
  | some e =>
    by_cases he : current_time < e
    · have hcode : e ≠ 0 ∧ e > current_time := ⟨by omega, he⟩
      refine ⟨rfl, rfl, ?_, rfl, ?_⟩
      · show (if e ≠ 0 ∧ e > current_time then e else current_time + 2592000)
            = if current_time < e then e else current_time + 2592000
        rw [if_pos hcode, if_pos he]
      · show current_time <
            (if e ≠ 0 ∧ e > current_time then e else current_time + 2592000)
        rw [if_pos hcode]
        exact he
    · have hcode : ¬(e ≠ 0 ∧ e > current_time) := fun hcon => he hcon.2
      refine ⟨rfl, rfl, ?_, rfl, ?_⟩
      · show (if e ≠ 0 ∧ e > current_time then e else current_time + 2592000)
            = if current_time < e then e else current_time + 2592000
        rw [if_neg hcode, if_neg he]
      · show current_time <
            (if e ≠ 0 ∧ e > current_time then e else current_time + 2592000)
        rw [if_neg hcode]
        omega

/-- Witness for C2: a successful exchange at time 1000 whose response
carries expiration 999999999. -/
theorem refresh_success_postcondition_witness :
    ((0 : Int) ≤ 1000 ∧
     (⟨"old", 0, false, 0⟩ : ClientState)._token_expires - 1000 ≤
       TOKEN_REFRESH_THRESHOLD ∧
     (⟨"old", 0, false, 0⟩ : ClientState)._refresh_lock = false ∧
     (300 : Int) ≤ 1000 - (⟨"old", 0, false, 0⟩ : ClientState)._last_refresh_time ∧
     "new" ≠ "") ∧
    ((refreshTokenIfNeeded ⟨"old", 0, false, 0⟩ 1000
        (.resp 200 (some 200) (some "new") (some 999999999))).result = true ∧
     (refreshTokenIfNeeded ⟨"old", 0, false, 0⟩ 1000
        (.resp 200 (some 200) (some "new") (some 999999999))).state._token = "new" ∧
     (refreshTokenIfNeeded ⟨"old", 0, false, 0⟩ 1000
        (.resp 200 (some 200) (some "new") (some 999999999))).state._token_expires =
       (match (some 999999999 : Option Int) with
        | some e => if (1000 : Int) < e then e else 1000 + 2592000
        | none => (1000 : Int) + 2592000) ∧
     (refreshTokenIfNeeded ⟨"old", 0, false, 0⟩ 1000
        (.resp 200 (some 200) (some "new") (some 999999999))).state._last_refresh_time
       = 1000 ∧
     (1000 : Int) <
       (refreshTokenIfNeeded ⟨"old", 0, false, 0⟩ 1000
          (.resp 200 (some 200) (some "new") (some 999999999))).state._token_expires) :=
  ⟨⟨by decide, by decide, rfl, by decide, by decide⟩,
   refresh_success_postcondition ⟨"old", 0, false, 0⟩ 1000 "new"
     (some 999999999) (by decide) (by decide) rfl (by decide) (by decide)⟩

/-- C3. Failed-refresh atomicity: when the guards pass and the exchange
response has a non-200 HTTP status, a non-200 application code, or a
missing or empty token, the call returns False and leaves both the stored
token and its expiry unchanged. -/
theorem refresh_failure_atomic (s : ClientState) (current_time : Int)
    (status : Nat) (code : Option Int) (token : Option String)
    (expiration : Option Int)
    (h1 : s._token_expires - current_time ≤ TOKEN_REFRESH_THRESHOLD)
    (h2 : s._refresh_lock = false)
    (h3 : 300 ≤ current_time - s._last_refresh_time)
    (h4 : status ≠ 200 ∨ code ≠ some 200 ∨ token = none ∨ token = some "") :
    (refreshTokenIfNeeded s current_time
       (.resp status code token expiration)).result = false ∧
    (refreshTokenIfNeeded s current_time
       (.resp status code token expiration)).state._token = s._token ∧
    (refreshTokenIfNeeded s current_time
       (.resp status code token expiration)).state._token_expires =
      s._token_expires := by
  rw [refresh_reaches_exchange s current_time _ h1 h2 h3]
  unfold performTokenExchange
  cases token with
  | none =>
    dsimp only
    split_ifs <;> exact ⟨rfl, rfl, rfl⟩
  | some t =>
    dsimp only
    rcases h4 with hs | hc | hn | he
    · rw [if_pos hs]
      exact ⟨rfl, rfl, rfl⟩
    · by_cases g1 : status ≠ 200
      · rw [if_pos g1]
        exact ⟨rfl, rfl, rfl⟩
      · rw [if_neg g1, if_pos hc]
        exact ⟨rfl, rfl, rfl⟩
    · exact absurd hn (Option.some_ne_none t)
    · have ht : t = "" := by injection he
      by_cases g1 : status ≠ 200
      · rw [if_pos g1]
        exact ⟨rfl, rfl, rfl⟩
      · by_cases g2 : code ≠ some 200
        · rw [if_neg g1, if_pos g2]
          exact ⟨rfl, rfl, rfl⟩
        · rw [if_neg g1, if_neg g2, if_pos ht]
          exact ⟨rfl, rfl, rfl⟩

/-- Witness for C3: an exchange answered with HTTP 500. -/
theorem refresh_failure_atomic_witness :
    ((⟨"old", 0, false, 0⟩ : ClientState)._token_expires - 1000 ≤
       TOKEN_REFRESH_THRESHOLD ∧
     (⟨"old", 0, false, 0⟩ : ClientState)._refresh_lock = false ∧
     (300 : Int) ≤ 1000 - (⟨"old", 0, false, 0⟩ : ClientState)._last_refresh_time ∧
     ((500 : Nat) ≠ 200 ∨ (some 200 : Option Int) ≠ some 200 ∨
      (some "new" : Option String) = none ∨ (some "new" : Option String) = some "")) ∧
    ((refreshTokenIfNeeded ⟨"old", 0, false, 0⟩ 1000
        (.resp 500 (some 200) (some "new") none)).result = false ∧
     (refreshTokenIfNeeded ⟨"old", 0, false, 0⟩ 1000
        (.resp 500 (some 200) (some "new") none)).state._token =
       (⟨"old", 0, false, 0⟩ : ClientState)._token ∧
     (refreshTokenIfNeeded ⟨"old", 0, false, 0⟩ 1000
        (.resp 500 (some 200) (some "new") none)).state._token_expires =
       (⟨"old", 0, false, 0⟩ : ClientState)._token_expires) :=
  ⟨⟨by decide, rfl, by decide, Or.inl (by decide)⟩,
   refresh_failure_atomic ⟨"old", 0, false, 0⟩ 1000 500 (some 200)
     (some "new") none (by decide) rfl (by decide) (Or.inl (by decide))⟩

/-- C7 refuted on the code: `_last_refresh_time` is only assigned in the
success branch, so a failed exchange does not arm the backoff guard. Here
two exchanges, both answered HTTP 500, reach the network only 30 seconds
apart (1000 and 1030), contradicting a 300-second minimum interval that is
independent of success or failure. -/
theorem backoff_ignores_failed_attempts :
    (refreshTokenIfNeeded ⟨"tok", 0, false, 0⟩ 1000
       (.resp 500 none none none)).networkCall = true ∧
    (refreshTokenIfNeeded
       (refreshTokenIfNeeded ⟨"tok", 0, false, 0⟩ 1000
          (.resp 500 none none none)).state
       1030 (.resp 500 none none none)).networkCall = true ∧
    (1030 : Int) - 1000 < 300 := by
  decide

/-- C8. `async_run_task` returns True exactly when the run-task PUT is
answered with HTTP status 200 and application code 200 — every other
outcome, an exception included, yields False — and an HTTP 401 answer
additionally sets `_last_refresh_time` to 0 before returning False. -/
theorem run_task_result_characterization (s : ClientState)
    (current_time : Int) (authNet : AuthResult) (runNet : RunResult)
    (task_id : String) :
    ((asyncRunTask s current_time authNet runNet task_id).result = true ↔
      runNet = RunResult.resp 200 (some 200)) ∧
    (∀ code : Option Int,
      (asyncRunTask s current_time authNet (.resp 401 code) task_id).result
        = false ∧
      (asyncRunTask s current_time authNet
         (.resp 401 code) task_id).state._last_refresh_time = 0) := by
  constructor
  · cases runNet with
    | exc => simp [asyncRunTask]
    | resp status code =>
      unfold asyncRunTask
      dsimp only
      split_ifs with g1 g2 g3 <;> simp_all
  · intro code
    unfold asyncRunTask
    dsimp only
    rw [if_pos rfl]
    exact ⟨rfl, rfl⟩

/-- C9. Failure propagation: for every outcome of the underlying HTTP
calls, `async_run_task` with a non-success run outcome (an exception, a
non-200 status, or a non-200 application code) returns False, and
`async_get_tasks` with a failure outcome returns the empty dict `{}`;
neither raises — in this model both are total functions into
`RunOutcome`/`TasksOutcome`, mirroring the source's catch-all `except
Exception` arms. -/
theorem client_never_raises (s : ClientState) (current_time : Int)
    (authNet : AuthResult) (task_id : String) (runNet : RunResult)
    (tnet : TasksNet)
    (hr : runNet ≠ RunResult.resp 200 (some 200))
    (ht : tasksFailureOutcome tnet = true) :
    (asyncRunTask s current_time authNet runNet task_id).result = false ∧
    (asyncGetTasks s current_time authNet tnet).payload = JVal.jobj [] := by
  constructor
  · cases runNet with
    | exc => rfl
    | resp status code =>
      unfold asyncRunTask
      dsimp only
      split_ifs with g1 g2 g3
      · rfl
      · rfl
      · rfl
      · exact absurd (by rw [not_not.mp g2, not_not.mp g3]) hr
  · cases tnet with
    | exc => rfl
    | resp status body =>
      unfold tasksFailureOutcome at ht
      unfold asyncGetTasks
      dsimp only at ht ⊢
      split_ifs with g1 g2 g3
      · rfl
      · rfl
      · exfalso
        rw [not_not.mp g2] at ht
        simp [g3] at ht
      · rfl

/-- Witness for C9: an exception on both the run-task and list-tasks
calls. -/
theorem client_never_raises_witness :
    (RunResult.exc ≠ RunResult.resp 200 (some 200) ∧
     tasksFailureOutcome TasksNet.exc = true) ∧
    ((asyncRunTask ⟨"tok", 0, false, 0⟩ 0 .exc .exc "42").result = false ∧
     (asyncGetTasks ⟨"tok", 0, false, 0⟩ 0 .exc .exc).payload = JVal.jobj []) :=
  ⟨⟨by decide, rfl⟩,
   client_never_raises ⟨"tok", 0, false, 0⟩ 0 .exc "42" .exc .exc
     (by decide) rfl⟩

/-- C10. Task-list parsing: a list-tasks response shaped
`{code:200, data:{data:[...], total:N}}` is returned by `async_get_tasks`
unmodified, and `_extract_tasks_list` yields exactly the inner list; for
the single sample task `{id:"1", command:"task foo.js", isDisabled:0}` the
attributes count one task, with command "task foo.js", tallied as enabled
(`isDisabled` 0 is falsy). -/
theorem task_list_parsing (s : ClientState) (current_time : Int)
    (authNet : AuthResult) (xs : List JVal) (total : Int) :
    (asyncGetTasks s current_time authNet
       (.resp 200 (mkListBody xs total))).payload = mkListBody xs total ∧
    extractTasksList (mkListBody xs total) = JVal.jarr xs ∧
    extractTasksList (mkListBody [sampleTask] 1) = JVal.jarr [sampleTask] ∧
    sampleTask.get "id" = some (JVal.jstr "1") ∧
    sampleTask.get "command" = some (JVal.jstr "task foo.js") ∧
    (getTasksAttributes [sampleTask]).total_tasks = 1 ∧
    (getTasksAttributes [sampleTask]).commands = [JVal.jstr "task foo.js"] ∧
    (getTasksAttributes [sampleTask]).enabled_tasks = 1 ∧
    (getTasksAttributes [sampleTask]).disabled_tasks = 0 := by
  refine ⟨?_, rfl, rfl, rfl, rfl, rfl, rfl, rfl, rfl⟩
  unfold asyncGetTasks
  dsimp only
  rw [if_neg (by decide : ¬ ((200 : Nat) = 401)),
      if_neg (by decide : ¬ ((200 : Nat) ≠ 200)),
      if_pos (show tasksCodeOk (mkListBody xs total) = true from rfl)]

end QingLong
